import Mathlib

/-!
Verification development for the mcp-broker tool-routing hub
(`src/server.js`).  The broker keeps a registry of WebSocket
broker-clients ("providers"), namespaces their tools, routes tool calls
from MCP consumers, proxies chat requests to an upstream model, and keeps
bounded activity / notification ring buffers.  The definitions below are a
shallow embedding of those parts of `src/server.js` that the stated
properties are about; theorems follow at the end of the file.
-/

namespace McpBroker

/-- JSON values, used for tool input schemas, tool-call arguments and
notification events (`src/server.js` passes these through as plain JS
values). -/
inductive Json where
  | null : Json
  | bool : Bool → Json
  | num : Int → Json
  | str : String → Json
  | arr : List Json → Json
  | obj : List (String × Json) → Json

/-- JavaScript truthiness of a JSON value (`undefined` is modelled as a
missing `Option` outside of `Json`). -/
def jsTruthy : Json → Bool
  | .null => false
  | .bool b => b
  | .num n => n != 0
  | .str s => s != ""
  | .arr _ => true
  | .obj _ => true

/-- Field lookup on a JSON object, `none` when absent or when the value is
not an object (models `obj.field` / `obj?.field` access). -/
def jsGet (j : Json) (k : String) : Option Json :=
  match j with
  | .obj fields => fields.lookup k
  | _ => none

/-- JavaScript `a || dflt` on a possibly-absent JSON value: the value when
present and truthy, the default otherwise. -/
def jsonOr (a : Option Json) (dflt : Json) : Json :=
  match a with
  | some x => if jsTruthy x then x else dflt
  | none => dflt

/-- JavaScript `a || b` on strings: `a` unless it is the empty string. -/
def jsOr (a b : String) : String :=
  if a = "" then b else a

/-- String interpolation of a JS value into a template literal
(`String(v)`), as used by activity messages. -/
def jsDisplay : Json → String
  | .null => "null"
  | .bool true => "true"
  | .bool false => "false"
  | .num n => toString n
  | .str s => s
  | .arr xs => String.intercalate "," (xs.attach.map fun x => jsDisplay x.1)
  | .obj _ => "[object Object]"
decreasing_by
  have := x.2
  simp only [Json.arr.sizeOf_spec]
  calc sizeOf x.1 < sizeOf xs := List.sizeOf_lt_of_mem this
    _ < 1 + sizeOf xs := by omega

-- ─── JSON.stringify(v, null, 2) ──────────────────────────────────────────

/-- Escape one character for a JSON string literal. -/
def escChar (c : Char) : String :=
  if c = '"' then "\\\""
  else if c = '\\' then "\\\\"
  else if c = '\n' then "\\n"
  else if c = '\t' then "\\t"
  else if c = '\r' then "\\r"
  else String.mk [c]

/-- Escape a string for inclusion in JSON output. -/
def escapeStr (s : String) : String :=
  s.data.foldl (fun acc c => acc ++ escChar c) ""

/-- A run of `n` spaces (indentation). -/
def spaces (n : Nat) : String :=
  String.mk (List.replicate n ' ')

mutual

/-- Render a JSON value the way `JSON.stringify(v, null, 2)` does, with
`ind` the indentation of the surrounding context. -/
def renderJ (ind : Nat) : Json → String
  | .null => "null"
  | .bool true => "true"
  | .bool false => "false"
  | .num n => toString n
  | .str s => "\"" ++ escapeStr s ++ "\""
  | .arr [] => "[]"
  | .arr (x :: xs) =>
      "[\n" ++ renderItems (ind + 2) x xs ++ "\n" ++ spaces ind ++ "]"
  | .obj [] => "\x7b\x7d"
  | .obj ((k, v) :: ps) =>
      "\x7b\n" ++ renderFields (ind + 2) k v ps ++ "\n" ++ spaces ind ++ "\x7d"
termination_by j => sizeOf j

/-- Render the comma-separated, newline-delimited items of a JSON array. -/
def renderItems (ind : Nat) (x : Json) (xs : List Json) : String :=
  match xs with
  | [] => spaces ind ++ renderJ ind x
  | y :: ys => spaces ind ++ renderJ ind x ++ ",\n" ++ renderItems ind y ys
termination_by 1 + sizeOf x + sizeOf xs

/-- Render the fields of a JSON object. -/
def renderFields (ind : Nat) (k : String) (v : Json)
    (ps : List (String × Json)) : String :=
  match ps with
  | [] => spaces ind ++ "\"" ++ escapeStr k ++ "\": " ++ renderJ ind v
  | (k2, v2) :: qs =>
      spaces ind ++ "\"" ++ escapeStr k ++ "\": " ++ renderJ ind v ++
        ",\n" ++ renderFields ind k2 v2 qs
termination_by 1 + sizeOf v + sizeOf ps

end

/-- Build a JSON object from optional fields, omitting the absent ones
(JS object fields holding `undefined` are dropped by `JSON.stringify`). -/
def jobj (fields : List (String × Option Json)) : Json :=
  .obj (fields.filterMap fun p => p.2.map fun v => (p.1, v))

-- ─── Identifier sanitization and tool-name namespacing ──────────────────

/-- A character admitted by the registration regex `[a-zA-Z0-9_-]`
(`src/server.js` line 180). -/
def validIdChar (c : Char) : Bool :=
  c.isAlphanum || c = '_' || c = '-'

/-- Sanitization applied to `msg.clientId` at registration:
`clientId.replace(/[^a-zA-Z0-9_-]/g, '_')` (`src/server.js` line 180). -/
def sanitizeClientId (s : String) : String :=
  String.mk (s.data.map fun c => if validIdChar c then c else '_')

/-- Tool-name namespacing: `` `${clientId}__${toolName}` ``
(`src/server.js` line 143). -/
def namespacedTool (clientId toolName : String) : String :=
  clientId ++ "__" ++ toolName

/-- Split a character list at the first occurrence of `"__"` (the
behaviour of `indexOf('__')` followed by the two `slice` calls in
`parseNamespacedTool`, `src/server.js` lines 146-153). -/
def splitSep : List Char → Option (List Char × List Char)
  | [] => none
  | c :: rest =>
      if c = '_' then
        match rest with
        | [] => none
        | d :: rest2 =>
            if d = '_' then some ([], rest2)
            else (splitSep rest).map fun p => (c :: p.1, p.2)
      else (splitSep rest).map fun p => (c :: p.1, p.2)

/-- `parseNamespacedTool` (`src/server.js` lines 146-153): split at the
first `"__"`, `none` when the separator does not occur. -/
def parseNamespacedTool (namespacedName : String) : Option (String × String) :=
  (splitSep namespacedName.data).map fun p => (String.mk p.1, String.mk p.2)

/-- No two consecutive underscores occur in the character list. -/
def noDoubleUnderscore : List Char → Bool
  | [] => true
  | [_] => true
  | a :: b :: rest =>
      !(a == '_' && b == '_') && noDoubleUnderscore (b :: rest)

-- ─── Configuration constants (src/server.js lines 42-48) ────────────────

/-- `TOOL_CALL_TIMEOUT_MS = 120_000` (`src/server.js` line 42). -/
def TOOL_CALL_TIMEOUT_MS : Nat := 120000

/-- The `timeout: 120000` option passed to the upstream call in
`proxyChat` (`src/server.js` line 329). -/
def CHAT_TIMEOUT_MS : Nat := 120000

/-- `DEFAULT_MODEL = 'qwen2.5:3b'` (`src/server.js` line 45). -/
def DEFAULT_MODEL : String := "qwen2.5:3b"

/-- `ACTIVITY_LOG_MAX = 200` (`src/server.js` line 46). -/
def ACTIVITY_LOG_MAX : Nat := 200

/-- `NOTIFICATION_MAX_PER_CLIENT = 100` (`src/server.js` line 47). -/
def NOTIFICATION_MAX_PER_CLIENT : Nat := 100

/-- `NOTIFICATION_MAX_GLOBAL = 500` (`src/server.js` line 48). -/
def NOTIFICATION_MAX_GLOBAL : Nat := 500

-- ─── Data model ─────────────────────────────────────────────────────────

/-- A tool descriptor as published by a broker-client; `description` and
`inputSchema` may be absent. -/
structure ToolDescr where
  name : String
  description : Option String := none
  inputSchema : Option Json := none

/-- A content item of a tool result (`{type, text, isError?}`); an absent
`isError` is modelled as `false`, which is equivalent under the
truthiness tests the code applies to it. -/
structure ContentItem where
  type : String
  text : String
  isError : Bool := false

/-- A registry entry: `{ ws, tools, connectedAt }` (`src/server.js`
line 193); the WebSocket send handle is modelled by a channel id. -/
structure ProviderEntry where
  ws : Nat
  tools : List ToolDescr
  connectedAt : String

/-- A pending tool call awaiting a `tool_result`; the resolve/reject
callbacks are represented by the correlation id itself and the timer by
its absolute deadline. -/
structure PendingCall where
  clientId : String
  toolName : String
  deadline : Nat
deriving DecidableEq

/-- A stored notification: `{ clientId, event, timestamp }`
(`src/server.js` lines 244-248). -/
structure Notification where
  clientId : String
  event : Json
  timestamp : String

/-- An activity-log entry: `{ time, type, message, data? }`
(`src/server.js` lines 103-107). -/
structure Activity where
  time : String
  type : String
  message : String
  data : Option Json := none

/-- The monotonic stats counters (`src/server.js` line 66). -/
structure Stats where
  toolCalls : Nat := 0
  toolErrors : Nat := 0
  chatRequests : Nat := 0
  chatErrors : Nat := 0
  totalConnections : Nat := 0
  notifications : Nat := 0
deriving DecidableEq

/-- The shared broker state: registry, pending-call correlator, stats,
activity log and the two notification ring buffers.  JS `Map`s are
modelled as insertion-ordered association lists. -/
structure BrokerState where
  registry : List (String × ProviderEntry) := []
  pendingCalls : List (String × PendingCall) := []
  stats : Stats := {}
  activityLog : List Activity := []
  clientNotifications : List (String × List Notification) := []
  globalNotifications : List Notification := []

/-- The broker state at process start. -/
def initialBroker : BrokerState := {}

/-- Per-connection session state: the channel id and the
`assignedClientId` variable of the connection handler
(`src/server.js` line 165). -/
structure SessionState where
  sid : Nat
  assigned : Option String := none

-- ─── JS Map operations on association lists ─────────────────────────────

/-- `Map.get` — first (unique) binding of the key. -/
def mapLookup (m : List (String × α)) (k : String) : Option α :=
  match m with
  | [] => none
  | p :: rest => if p.1 = k then some p.2 else mapLookup rest k

/-- `Map.has`. -/
def mapHas (m : List (String × α)) (k : String) : Bool :=
  (mapLookup m k).isSome

/-- `Map.set` — update in place when the key exists, append otherwise
(JS `Map` preserves insertion order). -/
def mapSet (m : List (String × α)) (k : String) (v : α) :
    List (String × α) :=
  match m with
  | [] => [(k, v)]
  | p :: rest => if p.1 = k then (k, v) :: rest else p :: mapSet rest k v

/-- `Map.delete` — remove the binding of the key, keeping order. -/
def mapDelete (m : List (String × α)) (k : String) : List (String × α) :=
  match m with
  | [] => []
  | p :: rest =>
      if p.1 = k then mapDelete rest k else p :: mapDelete rest k

-- ─── Ring buffers, notifications, activity ──────────────────────────────

/-- The `push` + `if (length > cap) shift()` pattern shared by all three
ring buffers (`src/server.js` lines 81-85 and 106-107). -/
def ringPush (cap : Nat) (buf : List α) (x : α) : List α :=
  let b2 := buf ++ [x]
  if cap < b2.length then b2.tail else b2

/-- `storeNotification` (`src/server.js` lines 77-86): append to the
per-client ring (creating it when absent) and to the global ring, each
bounded by its cap. -/
def storeNotification (clientId : String) (n : Notification)
    (b : BrokerState) : BrokerState :=
  let buf := (mapLookup b.clientNotifications clientId).getD []
  { b with
    clientNotifications :=
      mapSet b.clientNotifications clientId
        (ringPush NOTIFICATION_MAX_PER_CLIENT buf n)
    globalNotifications :=
      ringPush NOTIFICATION_MAX_GLOBAL b.globalNotifications n }

/-- `clearClientNotifications` (`src/server.js` lines 88-90). -/
def clearClientNotifications (clientId : String) (b : BrokerState) :
    BrokerState :=
  { b with clientNotifications := mapDelete b.clientNotifications clientId }

/-- `addActivity` (`src/server.js` lines 103-112): append an entry to the
bounded activity log.  (The SSE fan-out to observers carries the same
entry and is outside the verified state.) -/
def addActivity (time type message : String) (data : Option Json)
    (b : BrokerState) : BrokerState :=
  { b with
    activityLog :=
      ringPush ACTIVITY_LOG_MAX b.activityLog ⟨time, type, message, data⟩ }

/-- `getNotifications` (`src/server.js` lines 92-95) with the raw JSON
arguments of the `get_notifications` built-in: choose the per-client or
global ring, then `slice(-limit)` (default 50; `slice` of a non-positive
count yields the whole list, matching `slice(-0)`). -/
def getNotificationsJ (b : BrokerState) (cid lim : Option Json) :
    List Notification :=
  let src :=
    match cid with
    | some c =>
        if jsTruthy c then
          match c with
          | .str s => (mapLookup b.clientNotifications s).getD []
          | _ => []
        else b.globalNotifications
    | none => b.globalNotifications
  let limit : Int :=
    match lim with
    | some (.num n) => n
    | some _ => 0
    | none => 50
  if limit ≤ 0 then src else src.drop (src.length - limit.toNat)

-- ─── WebSocket session protocol (src/server.js lines 164-301) ───────────

/-- One chat message of a `chat_request` payload. -/
structure ChatMsg where
  role : String
  content : String

/-- The payload of a `chat_request`
(`{model?, messages?, prompt?}`). -/
structure ChatPayload where
  model : Option String := none
  messages : Option (List ChatMsg) := none
  prompt : Option String := none

/-- Inbound WebSocket frames, after JSON parsing and `msg.type` dispatch.
Absent (or falsy, where the code tests truthiness) fields are `none`;
`invalid` stands for an unparsable frame and `other` for an unknown
`type`. -/
inductive WsMsg where
  | register (clientId : Option String) (tools : Option (List ToolDescr))
  | unregister
  | toolResult (callId : Option String) (content : Option (List ContentItem))
      (isError : Option Bool)
  | chatRequest (requestId : Option String) (payload : Option ChatPayload)
  | notification (event : Option Json) (data : Option Json)
  | callTool (callId : Option String) (tool : Option String)
      (args : Option Json)
  | other (type : String)
  | invalid

/-- Outbound frames the broker sends on a provider channel. -/
inductive OutFrame where
  | error (message : String)
  | registered (clientId : String)
  | notificationAck (timestamp : String)
  | callToolResult (callId : String) (content : List ContentItem)
      (isError : Bool)
  | chatResponse (requestId : String) (role content model : String)
  | chatError (requestId : String) (error : String)
  | toolCall (callId : String) (tool : String) (args : Json)

/-- Asynchronous operations a message handler starts (the awaited parts
of the handler bodies): the chat proxy, the routing of a provider-issued
`call_tool`, and the resolution of a pending call delivered to its
awaiter. -/
inductive Effect where
  | proxyChat (requestId : String) (payload : ChatPayload)
  | route (callId : String) (tool : String) (args : Json)
  | resolve (callId : String) (content : List ContentItem) (isError : Bool)

/-- The result of processing one inbound frame: the updated session and
broker state, the frames sent back on this channel, the close requests
issued to other channels (with reason), and the asynchronous operations
started. -/
structure WsStep where
  session : SessionState
  broker : BrokerState
  frames : List OutFrame
  closes : List (Nat × String)
  effects : List Effect

/-- Interpolation of `assignedClientId` into a template literal (`null`
before registration). -/
def showAssigned : Option String → String
  | some s => s
  | none => "null"

/-- `assignedClientId` as a JSON data-field value. -/
def assignedJson : Option String → Json
  | some s => .str s
  | none => .null

/-- The client id assigned at registration (`src/server.js` lines
179-181): the sanitized `msg.clientId` when it is a non-empty string,
otherwise a random `rc_<hex>` id. -/
def registerClientId (cid? : Option String) (fresh : String) : String :=
  match cid? with
  | some s => if s.length > 0 then sanitizeClientId s else "rc_" ++ fresh
  | none => "rc_" ++ fresh

/-- The WebSocket message handler (`src/server.js` lines 167-286).
`nowIso` is the current `new Date().toISOString()` and `fresh` the hex
string produced by `crypto.randomBytes` where the handler draws one. -/
def wsHandleMessage (nowIso fresh : String) (st : SessionState)
    (b : BrokerState) (m : WsMsg) : WsStep :=
  match m with
  | .invalid => ⟨st, b, [.error "Invalid JSON"], [], []⟩
  | .register cid? tools? =>
      let clientId := registerClientId cid? fresh
      let replaced :=
        match mapLookup b.registry clientId with
        | some old =>
            let b1 := { b with registry := mapDelete b.registry clientId }
            let b2 := addActivity nowIso "disconnect"
              ("\"" ++ clientId ++ "\" replaced by reconnect")
              (some (jobj [("clientId", some (.str clientId))])) b1
            (b2, [(old.ws, "Replaced by new connection")])
        | none => (b, ([] : List (Nat × String)))
      let b1 := replaced.1
      let tools := tools?.getD []
      let b2 := { b1 with
        registry := mapSet b1.registry clientId ⟨st.sid, tools, nowIso⟩
        stats := { b1.stats with
          totalConnections := b1.stats.totalConnections + 1 } }
      let b3 := addActivity nowIso "connect"
        ("\"" ++ clientId ++ "\" registered with " ++
          toString tools.length ++ " tool(s)")
        (some (jobj [("clientId", some (.str clientId)),
          ("tools", some (.arr (tools.map fun t => .str t.name)))])) b2
      ⟨{ st with assigned := some clientId }, b3,
        [.registered clientId], replaced.2, []⟩
  | .unregister =>
      match st.assigned with
      | some id =>
          if mapHas b.registry id then
            let b1 := { b with registry := mapDelete b.registry id }
            let b2 := addActivity nowIso "disconnect"
              ("\"" ++ id ++ "\" unregistered")
              (some (jobj [("clientId", some (.str id))])) b1
            ⟨{ st with assigned := none }, b2, [], [], []⟩
          else ⟨st, b, [], [], []⟩
      | none => ⟨st, b, [], [], []⟩
  | .toolResult callId? content? isError? =>
      match callId? with
      | some callId =>
          match mapLookup b.pendingCalls callId with
          | some _ =>
              let b1 := { b with
                pendingCalls := mapDelete b.pendingCalls callId }
              ⟨st, b1, [], [],
                [.resolve callId
                  (content?.getD [⟨"text", "No content returned", false⟩])
                  (isError?.getD false)]⟩
          | none => ⟨st, b, [], [], []⟩
      | none => ⟨st, b, [], [], []⟩
  | .chatRequest requestId? payload? =>
      match requestId?, payload? with
      | some requestId, some payload =>
          let b1 := { b with stats := { b.stats with
            chatRequests := b.stats.chatRequests + 1 } }
          let b2 := addActivity nowIso "chat"
            ("Chat request from \"" ++ showAssigned st.assigned ++
              "\" (model: " ++ jsOr (payload.model.getD "") "default" ++ ")")
            (some (jobj [("clientId", some (assignedJson st.assigned)),
              ("model", payload.model.map .str)])) b1
          ⟨st, b2, [], [], [.proxyChat requestId payload]⟩
      | _, _ =>
          ⟨st, b, [.error "chat_request requires requestId and payload"],
            [], []⟩
  | .notification event? data? =>
      match st.assigned with
      | none =>
          ⟨st, b, [.error "Must register before sending notifications"],
            [], []⟩
      | some id =>
          let event := jsonOr event? (jsonOr data? (.obj []))
          let n : Notification := ⟨id, event, nowIso⟩
          let b1 := { b with stats := { b.stats with
            notifications := b.stats.notifications + 1 } }
          let b2 := storeNotification id n b1
          let b3 := addActivity nowIso "notification"
            (id ++ ": " ++ jsDisplay (jsonOr (jsGet event "type") (.str "event")))
            (some (jobj [("clientId", some (.str id)),
              ("event", some event)])) b2
          ⟨st, b3, [.notificationAck nowIso], [], []⟩
  | .callTool callId? tool? args? =>
      let callId := jsOr (callId?.getD "") fresh
      match tool? with
      | none =>
          ⟨st, b,
            [.callToolResult callId
              [⟨"text", "tool name is required", false⟩] true], [], []⟩
      | some tool =>
          let targs := jsonOr args? (.obj [])
          let b1 := { b with stats := { b.stats with
            toolCalls := b.stats.toolCalls + 1 } }
          let b2 := addActivity nowIso "tool_call"
            (showAssigned st.assigned ++ " → " ++ tool)
            (some (jobj [("clientId", some (assignedJson st.assigned)),
              ("tool", some (.str tool)), ("args", some targs)])) b1
          ⟨st, b2, [], [], [.route callId tool targs]⟩
  | .other type =>
      ⟨st, b, [.error ("Unknown message type: " ++ type)], [], []⟩

/-- The WebSocket `close` handler (`src/server.js` lines 288-296):
remove the registry entry, clear the per-client notification ring and
record a `disconnect` activity — only when this session had registered
and still owns its entry. -/
def wsHandleClose (nowIso : String) (st : SessionState) (b : BrokerState) :
    BrokerState :=
  match st.assigned with
  | some id =>
      if mapHas b.registry id then
        let b1 := { b with registry := mapDelete b.registry id }
        let b2 := clearClientNotifications id b1
        addActivity nowIso "disconnect" ("\"" ++ id ++ "\" disconnected")
          (some (jobj [("clientId", some (.str id))])) b2
      else b
  | none => b

-- ─── Chat proxy (src/server.js lines 305-358) ───────────────────────────

/-- The arguments handed to the upstream `request` tool by `proxyChat`. -/
structure GenArgs where
  prompt : String
  model : String
  system : Option String

/-- The prompt built by `proxyChat` (line 311): non-system message
contents joined with newlines, falling back to `payload.prompt`, then to
the empty string. -/
def chatPromptOf (p : ChatPayload) : String :=
  let messages := p.messages.getD []
  let userMessages := messages.filter fun m => m.role != "system"
  jsOr (String.intercalate "\n" (userMessages.map fun m => m.content))
    (jsOr (p.prompt.getD "") "")

/-- The system field of the upstream call: the content of the first
`system` message, when one exists (line 309 and 315). -/
def chatSystemOf (p : ChatPayload) : Option String :=
  ((p.messages.getD []).find? fun m => m.role == "system").map
    fun m => m.content

/-- The model of the upstream call: `payload.model || DEFAULT_MODEL`
(line 314). -/
def chatModelOf (p : ChatPayload) : String :=
  jsOr (p.model.getD "") DEFAULT_MODEL

/-- The full upstream argument object built by `proxyChat`
(lines 307-315). -/
def chatToolArgs (p : ChatPayload) : GenArgs :=
  ⟨chatPromptOf p, chatModelOf p, chatSystemOf p⟩

/-- Text extraction from the upstream MCP result (lines 335-338): keep
`text`-typed non-error items, join their texts with newlines, default to
the empty string. -/
def extractChatText (content : Option (List ContentItem)) : String :=
  jsOr
    (String.intercalate "\n"
      (((content.getD []).filter fun c =>
          c.type == "text" && !c.isError).map fun c => c.text))
    ""

/-- The `chat_response` frame `proxyChat` sends on upstream success
(lines 341-348); the `model` field is the literal `'qwen2.5:3b'` of
line 346. -/
def proxyChatSuccess (requestId : String) (_payload : ChatPayload)
    (resContent : Option (List ContentItem)) : OutFrame :=
  .chatResponse requestId "assistant" (extractChatText resContent)
    "qwen2.5:3b"

-- ─── Consumer adapter: tools/list (src/server.js lines 459-525) ─────────

/-- A tool descriptor as listed to MCP consumers. -/
structure ListedTool where
  name : String
  description : String
  inputSchema : Json

/-- The schema default `{type:'object', properties:{}}` (line 519). -/
def defaultSchema : Json :=
  .obj [("type", .str "object"), ("properties", .obj [])]

/-- `BUILTIN_TOOLS` (`src/server.js` lines 459-503), in declaration
order. -/
def BUILTIN_TOOLS : List ListedTool := [
  ⟨"list_broker_clients",
    "List all connected broker-clients and their published tools",
    .obj [("type", .str "object"), ("properties", .obj [])]⟩,
  ⟨"get_notifications",
    "Get recent notifications from broker-clients, optionally filtered by clientId",
    .obj [("type", .str "object"),
      ("properties", .obj [
        ("clientId", .obj [("type", .str "string"),
          ("description", .str "Filter by client ID (optional)")]),
        ("limit", .obj [("type", .str "number"),
          ("description", .str "Max notifications to return (default: 50)")])])]⟩,
  ⟨"speak",
    "Convert text to speech and play through speakers. Forwards to the kokoro-tts broker-client.",
    .obj [("type", .str "object"),
      ("properties", .obj [
        ("text", .obj [("type", .str "string"),
          ("description", .str "The text to convert to speech")]),
        ("voice", .obj [("type", .str "string"),
          ("description", .str "Voice ID (e.g. af_heart, am_adam). Use kokoro-tts__list_voices to see all options.")]),
        ("speed", .obj [("type", .str "number"),
          ("description", .str "Speed of speech (default: 1.0, range: 0.5-2.0)")])]),
      ("required", .arr [.str "text"])]⟩,
  ⟨"speak_action",
    "Rephrase a poker action into natural speech using AI, then speak it aloud. Use this when announcing game actions.",
    .obj [("type", .str "object"),
      ("properties", .obj [
        ("action", .obj [("type", .str "string"),
          ("description", .str "The poker action to announce (e.g. \"Raise 650\", \"Fold\", \"All-In: 5,000\")")])]),
      ("required", .arr [.str "action"])]⟩]

/-- The consumer-visible descriptor of one provider tool
(lines 516-520): namespaced name, description prefixed with `[id] `,
schema defaulted when absent. -/
def listedFor (clientId : String) (t : ToolDescr) : ListedTool :=
  ⟨namespacedTool clientId t.name,
    "[" ++ clientId ++ "] " ++ t.description.getD "",
    jsonOr t.inputSchema defaultSchema⟩

/-- The `ListToolsRequestSchema` handler (lines 511-525): start from the
built-ins and push every registered provider's tools in registry
iteration order. -/
def listTools (reg : List (String × ProviderEntry)) : List ListedTool :=
  reg.foldl (fun acc p => acc ++ p.2.tools.map (listedFor p.1))
    BUILTIN_TOOLS

-- ─── Tool call router (src/server.js lines 366-454) ─────────────────────

/-- The JSON rendered by the `list_broker_clients` built-in
(lines 368-374). -/
def clientsJson (reg : List (String × ProviderEntry)) : Json :=
  .arr (reg.map fun p =>
    .obj [("clientId", .str p.1),
      ("tools", .arr (p.2.tools.map fun t => .str t.name))])

/-- A stored notification as a JSON object (field order of
lines 244-248). -/
def notifJson (n : Notification) : Json :=
  .obj [("clientId", .str n.clientId), ("event", n.event),
    ("timestamp", .str n.timestamp)]

/-- What `routeToolCall` does, seen from its caller: an immediate result,
an immediate promise rejection (from `callProviderTool` when the target
provider is not connected), a dispatched pending call, or the start of
the asynchronous `speak_action` flow (Ollama rephrase, then TTS). -/
inductive RouteOutcome where
  | ok (content : List ContentItem) (isError : Bool)
  | reject (msg : String)
  | dispatch (clientId toolName : String) (args : Option Json)
  | speakAction (action : String)

/-- `routeToolCall` (`src/server.js` lines 366-429): built-ins first by
exact name, then namespaced `clientId__toolName` lookup, else the
`Unknown tool` error result. -/
def routeToolCall (b : BrokerState) (name : String) (args : Option Json) :
    RouteOutcome :=
  if name = "list_broker_clients" then
    .ok [⟨"text", renderJ 0 (clientsJson b.registry), false⟩] false
  else if name = "get_notifications" then
    .ok [⟨"text",
      renderJ 0 (.arr ((getNotificationsJ b
        (args.bind (jsGet · "clientId"))
        (args.bind (jsGet · "limit"))).map notifJson)), false⟩] false
  else if name = "speak" then
    match mapLookup b.registry "kokoro-tts" with
    | none => .reject "Broker client \"kokoro-tts\" not connected"
    | some _ => .dispatch "kokoro-tts" "speak" args
  else if name = "speak_action" then
    match args.bind (jsGet · "action") with
    | some (.str s) =>
        if s = "" then
          .ok [⟨"text", "action string is required", false⟩] true
        else .speakAction s
    | _ => .ok [⟨"text", "action string is required", false⟩] true
  else
    match parseNamespacedTool name with
    | none => .ok [⟨"text", "Unknown tool: " ++ name, false⟩] true
    | some (clientId, toolName) =>
        match mapLookup b.registry clientId with
        | none =>
            .reject ("Broker client \"" ++ clientId ++ "\" not connected")
        | some _ => .dispatch clientId toolName args

/-- The observable outcome of the `CallToolRequestSchema` handler: a
well-formed MCP result, a still-pending dispatched call, or a started
`speak_action` flow. -/
inductive McpOutcome where
  | result (content : List ContentItem) (isError : Bool)
  | pending (callId : String)
  | flow

/-- The `CallToolRequestSchema` handler (lines 527-545) combined with the
synchronous part of `callProviderTool` (lines 431-454): count the call,
record activity, route; a rejection is caught and mapped to an
`Error: <message>` result with `tool_errors` incremented; a dispatch
installs a pending call whose timer deadline is
`nowMs + TOOL_CALL_TIMEOUT_MS`. -/
def mcpCallTool (nowMs : Nat) (nowIso freshCallId : String)
    (b : BrokerState) (name : String) (args : Option Json) :
    BrokerState × McpOutcome :=
  let b1 := { b with stats := { b.stats with
    toolCalls := b.stats.toolCalls + 1 } }
  let b2 := addActivity nowIso "tool_call" (name ++ " called")
    (some (jobj [("tool", some (.str name)), ("args", args)])) b1
  match routeToolCall b2 name args with
  | .ok content isError =>
      let b3 := addActivity nowIso "tool_result" (name ++ " returned")
        (some (jobj [("tool", some (.str name)),
          ("isError", some (.bool isError))])) b2
      let b4 :=
        if isError then
          { b3 with stats := { b3.stats with
            toolErrors := b3.stats.toolErrors + 1 } }
        else b3
      (b4, .result content isError)
  | .reject msg =>
      let b3 := { b2 with stats := { b2.stats with
        toolErrors := b2.stats.toolErrors + 1 } }
      let b4 := addActivity nowIso "tool_error"
        (name ++ " failed: " ++ msg)
        (some (jobj [("tool", some (.str name))])) b3
      (b4, .result [⟨"text", "Error: " ++ msg, false⟩] true)
  | .dispatch clientId toolName _ =>
      let pend : PendingCall :=
        ⟨clientId, toolName, nowMs + TOOL_CALL_TIMEOUT_MS⟩
      let b3 := { b2 with
        pendingCalls := mapSet b2.pendingCalls freshCallId pend }
      (b3, .pending freshCallId)
  | .speakAction _ => (b2, .flow)

/-- The timer installed by `callProviderTool` (lines 440-443): when it
fires for a still-pending call, the entry is removed and the awaiter is
rejected with the timeout message. -/
def fireToolTimeout (callId : String) (b : BrokerState) :
    BrokerState × Option String :=
  match mapLookup b.pendingCalls callId with
  | some p =>
      ({ b with pendingCalls := mapDelete b.pendingCalls callId },
        some ("Tool call \"" ++ p.toolName ++ "\" on \"" ++ p.clientId ++
          "\" timed out after " ++ toString TOOL_CALL_TIMEOUT_MS ++ "ms"))
  | none => (b, none)

/-- All three ring buffers are within their caps. -/
def RingInv (b : BrokerState) : Prop :=
  b.activityLog.length ≤ ACTIVITY_LOG_MAX ∧
  b.globalNotifications.length ≤ NOTIFICATION_MAX_GLOBAL ∧
  ∀ p ∈ b.clientNotifications, p.2.length ≤ NOTIFICATION_MAX_PER_CLIENT

instance (b : BrokerState) : Decidable (RingInv b) := by
  unfold RingInv; infer_instance

-- ─── Shared lemmas ──────────────────────────────────────────────────────

theorem noDoubleUnderscore_tail {c : Char} {cs : List Char}
    (h : noDoubleUnderscore (c :: cs) = true) :
    noDoubleUnderscore cs = true := by
  cases cs with
  | nil => rfl
  | cons d ds =>
    simp only [noDoubleUnderscore, Bool.and_eq_true] at h
    exact h.2

theorem splitSep_us_us (rest : List Char) :
    splitSep ('_' :: '_' :: rest) = some ([], rest) := by
  simp [splitSep]

theorem splitSep_cons_not_us {c : Char} (hc : ¬c = '_')
    (rest : List Char) :
    splitSep (c :: rest) = (splitSep rest).map fun p => (c :: p.1, p.2) := by
  simp [splitSep, hc]

theorem splitSep_us_not {d : Char} (hd : ¬d = '_') (rest2 : List Char) :
    splitSep ('_' :: d :: rest2) =
      (splitSep (d :: rest2)).map fun p => ('_' :: p.1, p.2) := by
  simp [splitSep, hd]

theorem splitSep_append (t : List Char) :
    ∀ id : List Char, noDoubleUnderscore id = true →
      id.getLast? ≠ some '_' →
      splitSep (id ++ '_' :: '_' :: t) = some (id, t) := by
  intro id
  induction id with
  | nil => intro _ _; simpa using splitSep_us_us t
  | cons c cs ih =>
    intro h1 h2
    by_cases hc : c = '_'
    · subst hc
      cases cs with
      | nil => simp at h2
      | cons d ds =>
        by_cases hd : d = '_'
        · subst hd; simp [noDoubleUnderscore] at h1
        · have hrec := ih (noDoubleUnderscore_tail h1)
            (by rwa [List.getLast?_cons_cons] at h2)
          simp only [List.cons_append] at hrec ⊢
          rw [splitSep_us_not hd, hrec, Option.map_some']
    · have h2' : cs.getLast? ≠ some '_' := by
        cases cs with
        | nil => simp
        | cons d ds => rwa [List.getLast?_cons_cons] at h2
      have hrec := ih (noDoubleUnderscore_tail h1) h2'
      rw [List.cons_append, splitSep_cons_not_us hc, hrec, Option.map_some']

-- map / ring lemmas used by several invariants below

theorem mapLookup_set_self (m : List (String × α)) (k : String) (v : α) :
    mapLookup (mapSet m k v) k = some v := by
  induction m with
  | nil => simp [mapSet, mapLookup]
  | cons p rest ih =>
    by_cases h : p.1 = k
    · simp [mapSet, mapLookup, h]
    · simp [mapSet, mapLookup, h, ih]

theorem mapLookup_delete_self (m : List (String × α)) (k : String) :
    mapLookup (mapDelete m k) k = none := by
  induction m with
  | nil => rfl
  | cons p rest ih =>
    by_cases h : p.1 = k
    · simp [mapDelete, h, ih]
    · simp [mapDelete, mapLookup, h, ih]

theorem mapLookup_mem {m : List (String × α)} {k : String} {v : α}
    (h : mapLookup m k = some v) : (k, v) ∈ m := by
  induction m with
  | nil => simp [mapLookup] at h
  | cons p rest ih =>
    by_cases hk : p.1 = k
    · simp only [mapLookup, if_pos hk] at h
      obtain ⟨a, b⟩ := p
      simp_all
    · simp only [mapLookup, if_neg hk] at h
      exact List.mem_cons_of_mem _ (ih h)

theorem mapSet_forall {P : String × α → Prop} {m : List (String × α)}
    (hm : ∀ p ∈ m, P p) {v : α} {k : String} (hv : P (k, v)) :
    ∀ p ∈ mapSet m k v, P p := by
  induction m with
  | nil => simpa [mapSet]
  | cons q rest ih =>
    intro p hp
    by_cases hk : q.1 = k
    · simp only [mapSet, if_pos hk, List.mem_cons] at hp
      rcases hp with rfl | hp
      · exact hv
      · exact hm p (List.mem_cons_of_mem _ hp)
    · simp only [mapSet, if_neg hk, List.mem_cons] at hp
      rcases hp with rfl | hp
      · exact hm p (List.mem_cons_self _ _)
      · exact ih (fun q hq => hm q (List.mem_cons_of_mem _ hq)) p hp

theorem mapDelete_forall {P : String × α → Prop} {m : List (String × α)}
    (hm : ∀ p ∈ m, P p) (k : String) :
    ∀ p ∈ mapDelete m k, P p := by
  induction m with
  | nil => simp [mapDelete]
  | cons q rest ih =>
    intro p hp
    by_cases hk : q.1 = k
    · simp only [mapDelete, if_pos hk] at hp
      exact ih (fun r hr => hm r (List.mem_cons_of_mem _ hr)) p hp
    · simp only [mapDelete, if_neg hk, List.mem_cons] at hp
      rcases hp with rfl | hp
      · exact hm p (List.mem_cons_self _ _)
      · exact ih (fun r hr => hm r (List.mem_cons_of_mem _ hr)) p hp

theorem ringPush_length_le {cap : Nat} {buf : List α}
    (h : buf.length ≤ cap) (x : α) :
    (ringPush cap buf x).length ≤ cap := by
  simp only [ringPush]
  split
  · rename_i hlt
    simp only [List.length_tail, List.length_append,
      List.length_singleton] at hlt ⊢
    omega
  · rename_i hlt
    simp only [List.length_append, List.length_singleton] at hlt ⊢
    omega

-- ─── Claim C1 ───────────────────────────────────────────────────────────

/-- C1 (amended): parsing a namespaced name at the first `__` recovers
the (provider id, tool) pair provided the sanitized id itself contains no
`__` and does not end in `_`.  Sanitization alone does not ensure this
(`_` is in the preserved class `[A-Za-z0-9_-]` and every replaced
character becomes `_`), so the extra hypotheses are necessary — see the
counterexample. -/
theorem c1_roundtrip_for_separator_free_ids (rawId tool : String)
    (h1 : noDoubleUnderscore (sanitizeClientId rawId).data = true)
    (h2 : (sanitizeClientId rawId).data.getLast? ≠ some '_') :
    parseNamespacedTool (namespacedTool (sanitizeClientId rawId) tool) =
      some (sanitizeClientId rawId, tool) := by
  unfold namespacedTool parseNamespacedTool
  have hdata : (sanitizeClientId rawId ++ "__" ++ tool).data =
      (sanitizeClientId rawId).data ++ '_' :: '_' :: tool.data := by
    rw [String.data_append, String.data_append, List.append_assoc]
    rfl
  rw [hdata, splitSep_append tool.data _ h1 h2, Option.map_some']

/-- Witness for C1 at a concrete registration: the provider id
`test-agent` survives sanitization with no `__` and no trailing `_`, and
`test-agent__echo` parses back to the pair. -/
theorem c1_roundtrip_witness :
    noDoubleUnderscore (sanitizeClientId "test-agent").data = true ∧
    (sanitizeClientId "test-agent").data.getLast? ≠ some '_' ∧
    parseNamespacedTool (namespacedTool (sanitizeClientId "test-agent")
      "echo") = some (sanitizeClientId "test-agent", "echo") :=
  ⟨by decide, by decide,
    c1_roundtrip_for_separator_free_ids "test-agent" "echo"
      (by decide) (by decide)⟩

/-- Counterexample to C1 as stated: sanitizing `a!!b` yields `a__b` (each
`!` becomes `_`), the tool name `t` matches `[A-Za-z0-9_-]+`, yet parsing
`a__b__t` at the first `__` gives `(a, b__t)`, not `(a__b, t)`. -/
theorem c1_counterexample :
    sanitizeClientId "a!!b" = "a__b" ∧
    parseNamespacedTool (namespacedTool (sanitizeClientId "a!!b") "t") =
      some ("a", "b__t") ∧
    parseNamespacedTool (namespacedTool (sanitizeClientId "a!!b") "t") ≠
      some (sanitizeClientId "a!!b", "t") := by
  refine ⟨by decide, by decide, by decide⟩

-- ─── Router helper lemmas ───────────────────────────────────────────────

theorem parse_ne_builtin {name clientId toolName : String}
    (hparse : parseNamespacedTool name = some (clientId, toolName)) :
    name ≠ "list_broker_clients" ∧ name ≠ "get_notifications" ∧
    name ≠ "speak" ∧ name ≠ "speak_action" := by
  refine ⟨?_, ?_, ?_, ?_⟩
  · rintro rfl
    rw [show parseNamespacedTool "list_broker_clients" = none from by
      decide] at hparse
    exact Option.noConfusion hparse
  · rintro rfl
    rw [show parseNamespacedTool "get_notifications" = none from by
      decide] at hparse
    exact Option.noConfusion hparse
  · rintro rfl
    rw [show parseNamespacedTool "speak" = none from by decide] at hparse
    exact Option.noConfusion hparse
  · rintro rfl
    rw [show parseNamespacedTool "speak_action" = none from by
      decide] at hparse
    exact Option.noConfusion hparse

theorem routeToolCall_namespaced (b : BrokerState)
    {name clientId toolName : String} (args : Option Json)
    (hparse : parseNamespacedTool name = some (clientId, toolName)) :
    routeToolCall b name args =
      match mapLookup b.registry clientId with
      | none =>
          .reject ("Broker client \"" ++ clientId ++ "\" not connected")
      | some _ => .dispatch clientId toolName args := by
  obtain ⟨n1, n2, n3, n4⟩ := parse_ne_builtin hparse
  unfold routeToolCall
  rw [if_neg n1, if_neg n2, if_neg n3, if_neg n4, hparse]

-- ─── Claim C2 ───────────────────────────────────────────────────────────

/-- C2 (amended): a tool call dispatched to a registered provider at time
`nowMs` installs a pending call whose deadline is
`nowMs + TOOL_CALL_TIMEOUT_MS`; when that timer fires the entry is
removed and the awaiter is rejected with the timeout message.  The
tool-call deadline is 120 seconds — `TOOL_CALL_TIMEOUT_MS = 120_000`, not
the 300 seconds the claim states — and the chat deadline is the claimed
120 seconds. -/
theorem c2_timeout_deadlines (b : BrokerState) (nowMs : Nat)
    (nowIso freshCallId name clientId toolName : String)
    (args : Option Json) (e : ProviderEntry)
    (hparse : parseNamespacedTool name = some (clientId, toolName))
    (hreg : mapLookup b.registry clientId = some e) :
    mapLookup (mcpCallTool nowMs nowIso freshCallId b name
        args).1.pendingCalls freshCallId =
      some ⟨clientId, toolName, nowMs + TOOL_CALL_TIMEOUT_MS⟩ ∧
    (fireToolTimeout freshCallId
        (mcpCallTool nowMs nowIso freshCallId b name args).1).2 =
      some ("Tool call \"" ++ toolName ++ "\" on \"" ++ clientId ++
        "\" timed out after " ++ toString TOOL_CALL_TIMEOUT_MS ++ "ms") ∧
    mapLookup (fireToolTimeout freshCallId
        (mcpCallTool nowMs nowIso freshCallId b name
          args).1).1.pendingCalls freshCallId = none ∧
    TOOL_CALL_TIMEOUT_MS = 120 * 1000 ∧ CHAT_TIMEOUT_MS = 120 * 1000 := by
  have hro := routeToolCall_namespaced
    (addActivity nowIso "tool_call" (name ++ " called")
      (some (jobj [("tool", some (.str name)), ("args", args)]))
      { b with stats := { b.stats with
          toolCalls := b.stats.toolCalls + 1 } }) args hparse
  have hstep : (mcpCallTool nowMs nowIso freshCallId b name
      args).1.pendingCalls =
      mapSet b.pendingCalls freshCallId
        ⟨clientId, toolName, nowMs + TOOL_CALL_TIMEOUT_MS⟩ := by
    simp only [mcpCallTool]
    rw [hro]
    simp only [addActivity, hreg]
  have hpend := mapLookup_set_self b.pendingCalls freshCallId
    (⟨clientId, toolName, nowMs + TOOL_CALL_TIMEOUT_MS⟩ : PendingCall)
  refine ⟨by rw [hstep]; exact hpend, ?_, ?_, rfl, rfl⟩
  · unfold fireToolTimeout
    rw [hstep, hpend]
  · unfold fireToolTimeout
    rw [hstep, hpend]
    exact mapLookup_delete_self _ _

/-- Witness for C2: a provider `prov` is registered, a consumer calls
`prov__noop` at time 0, and the installed deadline is at 120000 ms. -/
theorem c2_timeout_witness :
    parseNamespacedTool "prov__noop" = some ("prov", "noop") ∧
    mapLookup (mcpCallTool 0 "t0" "c1"
        { initialBroker with
          registry := [("prov", ⟨7, [], "t0"⟩)] } "prov__noop"
        none).1.pendingCalls "c1" =
      some ⟨"prov", "noop", 0 + TOOL_CALL_TIMEOUT_MS⟩ :=
  ⟨by decide,
    (c2_timeout_deadlines
      { initialBroker with registry := [("prov", ⟨7, [], "t0"⟩)] }
      0 "t0" "c1" "prov__noop" "prov" "noop" none ⟨7, [], "t0"⟩
      (by decide) rfl).1⟩

/-- Counterexample to C2 as stated: the tool-call deadline constant of
the code is 120000 ms, not 300 seconds, and the timer of a call pending
under it rejects with a message naming 120000 ms. -/
theorem c2_counterexample :
    TOOL_CALL_TIMEOUT_MS = 120000 ∧ TOOL_CALL_TIMEOUT_MS ≠ 300 * 1000 ∧
    (fireToolTimeout "c1"
        { initialBroker with
          pendingCalls := [("c1", ⟨"slow", "noop", 120000⟩)] }).2 =
      some "Tool call \"noop\" on \"slow\" timed out after 120000ms" := by
  refine ⟨rfl, by decide, by decide⟩

-- ─── Claim C3 ───────────────────────────────────────────────────────────

/-- C3 (amended): only `notification` is gated on registration — a
`notification` frame from a session that has not registered is answered
with exactly the `Must register before sending notifications` error
frame, the broker state is left unchanged, and in particular nothing is
stored in any notification ring.  (Other pre-registration messages are
not rejected; see the counterexample.) -/
theorem c3_notification_before_register_rejected
    (nowIso fresh : String) (sid : Nat) (b : BrokerState)
    (event? data? : Option Json) :
    wsHandleMessage nowIso fresh ⟨sid, none⟩ b
        (.notification event? data?) =
      ⟨⟨sid, none⟩, b,
        [.error "Must register before sending notifications"], [], []⟩ :=
  rfl

/-- Counterexample to C3 as stated: a `chat_request` arriving before any
`register` is not rejected — the session receives no `error` frame, the
`chat_requests` counter changes from 0 to 1 (so broker state is not left
unchanged), and the chat proxy is started. -/
theorem c3_counterexample :
    (wsHandleMessage "t1" "f" ⟨1, none⟩ initialBroker
        (.chatRequest (some "r1")
          (some ⟨none, some [⟨"user", "hi"⟩], none⟩))).frames = [] ∧
    (wsHandleMessage "t1" "f" ⟨1, none⟩ initialBroker
        (.chatRequest (some "r1")
          (some ⟨none, some [⟨"user", "hi"⟩],
            none⟩))).broker.stats.chatRequests = 1 := by
  exact ⟨rfl, rfl⟩

-- ─── Claim C10 ──────────────────────────────────────────────────────────

/-- C10: a `register` whose `tools` field is missing or not an array
(modelled by `none`) still succeeds — for any prior broker state the
session is assigned an id, the registry maps that id to an entry with an
empty tool list, and the only frame sent back is the `registered`
acknowledgement (no `error` frame). -/
theorem c10_register_without_tools_succeeds
    (nowIso fresh : String) (st : SessionState) (b : BrokerState)
    (cid? : Option String) :
    (wsHandleMessage nowIso fresh st b (.register cid? none)).frames =
      [.registered (registerClientId cid? fresh)] ∧
    mapLookup (wsHandleMessage nowIso fresh st b
        (.register cid? none)).broker.registry
      (registerClientId cid? fresh) = some ⟨st.sid, [], nowIso⟩ ∧
    (wsHandleMessage nowIso fresh st b
        (.register cid? none)).session.assigned =
      some (registerClientId cid? fresh) := by
  cases hm : mapLookup b.registry (registerClientId cid? fresh) <;>
    simp [wsHandleMessage, hm, addActivity, mapLookup_set_self]

-- ─── Claim C4 ───────────────────────────────────────────────────────────

theorem append_left_assoc (a b s : String) :
    a ++ (b ++ s) = (a ++ b) ++ s := by
  apply String.ext
  simp [String.data_append, List.append_assoc]

theorem errorMessageAssoc (s : String) :
    "Error: " ++ ("Broker client \"" ++ s ++ "\" not connected") =
      "Error: Broker client \"" ++ s ++ "\" not connected" := by
  rw [append_left_assoc "Error: " ("Broker client \"" ++ s)
    "\" not connected", append_left_assoc "Error: " "Broker client \"" s]
  rfl

/-- C4: a consumer `tools/call` whose name parses as `id__tool` with `id`
not currently registered yields the in-band error result
`{content: [{type: text, text: Error: Broker client "<id>" not
connected}], isError: true}` — a well-formed MCP result, not a transport
error — and increments `tool_errors` by exactly one. -/
theorem c4_not_connected_error (b : BrokerState) (nowMs : Nat)
    (nowIso freshCallId name clientId toolName : String)
    (args : Option Json)
    (hparse : parseNamespacedTool name = some (clientId, toolName))
    (hreg : mapLookup b.registry clientId = none) :
    (mcpCallTool nowMs nowIso freshCallId b name args).2 =
      .result [⟨"text",
        "Error: Broker client \"" ++ clientId ++ "\" not connected",
        false⟩] true ∧
    (mcpCallTool nowMs nowIso freshCallId b name
        args).1.stats.toolErrors = b.stats.toolErrors + 1 := by
  have hro := routeToolCall_namespaced
    (addActivity nowIso "tool_call" (name ++ " called")
      (some (jobj [("tool", some (.str name)), ("args", args)]))
      { b with stats := { b.stats with
          toolCalls := b.stats.toolCalls + 1 } }) args hparse
  constructor
  · simp only [mcpCallTool]
    rw [hro]
    simp only [addActivity, hreg]
    rw [errorMessageAssoc]
  · simp only [mcpCallTool]
    rw [hro]
    simp only [addActivity, hreg]

/-- Witness for C4 at the literal scenario of the spec: calling
`ghost__x` with no provider registered. -/
theorem c4_not_connected_witness :
    parseNamespacedTool "ghost__x" = some ("ghost", "x") ∧
    ((mcpCallTool 0 "t0" "c9" initialBroker "ghost__x" none).2 =
      .result [⟨"text", "Error: Broker client \"ghost\" not connected",
        false⟩] true ∧
    (mcpCallTool 0 "t0" "c9" initialBroker "ghost__x"
        none).1.stats.toolErrors =
      initialBroker.stats.toolErrors + 1) :=
  ⟨by decide,
    c4_not_connected_error initialBroker 0 "t0" "c9" "ghost__x" "ghost"
      "x" none (by decide) rfl⟩

-- ─── Claim C5 ───────────────────────────────────────────────────────────

theorem foldl_append_eq_join {α β : Type} (f : α → List β) :
    ∀ (l : List α) (acc : List β),
      l.foldl (fun a p => a ++ f p) acc = acc ++ (l.map f).flatten := by
  intro l
  induction l with
  | nil => intro acc; simp
  | cons x xs ih => intro acc; simp [ih, List.append_assoc]

/-- C5: for every registry, the `tools/list` response is the fixed
built-in descriptors in declaration order, followed — per registry entry
in registration (insertion) order — by the provider's tools with name
rewritten to `<id>__<name>`, description prefixed with `[<id>] ` (empty
description when absent), and input schema defaulted to
`{type: object, properties: {}}` when absent. -/
theorem c5_list_tools_shape (reg : List (String × ProviderEntry)) :
    listTools reg =
      BUILTIN_TOOLS ++
        (reg.map fun p => p.2.tools.map fun t =>
          (⟨p.1 ++ "__" ++ t.name,
            "[" ++ p.1 ++ "] " ++ t.description.getD "",
            jsonOr t.inputSchema defaultSchema⟩ : ListedTool)).flatten := by
  rw [listTools,
    foldl_append_eq_join (fun p => p.2.tools.map (listedFor p.1)) reg
      BUILTIN_TOOLS]
  rfl

-- ─── Claim C6 ───────────────────────────────────────────────────────────

theorem jsOr_empty_right (s : String) : jsOr s "" = s := by
  by_cases h : s = "" <;> simp [jsOr, h]

theorem filter_map_eq_filterMap {α β : Type} (p : α → Bool) (f : α → β)
    (l : List α) :
    (l.filter p).map f =
      l.filterMap fun a => if p a then some (f a) else none := by
  induction l with
  | nil => rfl
  | cons x xs ih => by_cases h : p x <;> simp [h, ih]

/-- C6 (amended): the `chat_response` sent on a successful proxied chat
carries `role: assistant`, the text extracted from the upstream result
(the newline-join of its `text`-typed, non-error items), and a `model`
field that is always the configured default model `qwen2.5:3b`
(hard-coded at `src/server.js` line 346) — not the request payload's
model, even when one was supplied. -/
theorem c6_chat_response_fields (requestId : String) (p : ChatPayload)
    (rc : Option (List ContentItem)) :
    proxyChatSuccess requestId p rc =
      .chatResponse requestId "assistant"
        (String.intercalate "\n"
          ((rc.getD []).filterMap fun c =>
            if c.type == "text" && !c.isError then some c.text else none))
        DEFAULT_MODEL := by
  unfold proxyChatSuccess extractChatText DEFAULT_MODEL
  rw [jsOr_empty_right, filter_map_eq_filterMap]

/-- Counterexample to C6 as stated: a request payload supplying
`model: llama3` still gets a `chat_response` whose model field is the
default `qwen2.5:3b`, so the resolved model is not the payload's model
when supplied. -/
theorem c6_counterexample :
    proxyChatSuccess "r1" ⟨some "llama3", some [⟨"user", "hi"⟩], none⟩
        (some [⟨"text", "hello", false⟩]) =
      .chatResponse "r1" "assistant" "hello" "qwen2.5:3b" ∧
    (⟨some "llama3", some [⟨"user", "hi"⟩], none⟩ : ChatPayload).model =
      some "llama3" ∧
    "qwen2.5:3b" ≠ "llama3" :=
  ⟨rfl, rfl, by decide⟩

-- ─── Claim C8 ───────────────────────────────────────────────────────────

/-- C8: contrary to the claim, `ask_ai` is not implemented in
`src/server.js` — it is absent from `BUILTIN_TOOLS` (so it appears in no
`tools/list` response), and routing a call named `ask_ai` falls through
the built-in checks, fails to parse as a namespaced name (it contains no
`__`), and produces the `Unknown tool: ask_ai` routing error.  The
repository's own ask-test script calls `ask_ai` through the broker and
expects an answer, so the claim reflects the documented intent and the
code omits the tool. -/
theorem c8_ask_ai_missing :
    routeToolCall initialBroker "ask_ai"
        (some (.obj [("prompt", .str "hi")])) =
      .ok [⟨"text", "Unknown tool: ask_ai", false⟩] true ∧
    (BUILTIN_TOOLS.map fun t => t.name) =
      ["list_broker_clients", "get_notifications", "speak",
        "speak_action"] ∧
    ((listTools initialBroker.registry).map fun t => t.name) =
      ["list_broker_clients", "get_notifications", "speak",
        "speak_action"] :=
  ⟨rfl, rfl, rfl⟩

-- ─── Claim C7 ───────────────────────────────────────────────────────────

/-- C7 (amended): each terminal transition of a registered provider
clears its Registry entry and records a `disconnect` activity, but only
the channel-close transition also clears the per-provider notification
ring — `unregister` and replacement-by-reconnect leave the ring intact,
so a provider absent from the Registry can retain a non-empty ring (see
the counterexample). -/
theorem c7_terminal_transitions (nowIso fresh : String) (sid : Nat)
    (b : BrokerState) (id : String) (e : ProviderEntry)
    (hreg : mapLookup b.registry id = some e) :
    (mapLookup (wsHandleClose nowIso ⟨sid, some id⟩ b).registry id =
        none ∧
      mapLookup (wsHandleClose nowIso
          ⟨sid, some id⟩ b).clientNotifications id = none ∧
      (wsHandleClose nowIso ⟨sid, some id⟩ b).activityLog =
        ringPush ACTIVITY_LOG_MAX b.activityLog
          ⟨nowIso, "disconnect", "\"" ++ id ++ "\" disconnected",
            some (jobj [("clientId", some (.str id))])⟩) ∧
    (mapLookup (wsHandleMessage nowIso fresh ⟨sid, some id⟩ b
          .unregister).broker.registry id = none ∧
      (wsHandleMessage nowIso fresh ⟨sid, some id⟩ b
          .unregister).broker.clientNotifications =
        b.clientNotifications ∧
      (wsHandleMessage nowIso fresh ⟨sid, some id⟩ b
          .unregister).broker.activityLog =
        ringPush ACTIVITY_LOG_MAX b.activityLog
          ⟨nowIso, "disconnect", "\"" ++ id ++ "\" unregistered",
            some (jobj [("clientId", some (.str id))])⟩) ∧
    (∀ (rawId : String) (tools : List ToolDescr),
      sanitizeClientId rawId = id → 0 < rawId.length →
      (wsHandleMessage nowIso fresh ⟨sid + 1, none⟩ b
          (.register (some rawId)
            (some tools))).broker.clientNotifications =
        b.clientNotifications ∧
      (wsHandleMessage nowIso fresh ⟨sid + 1, none⟩ b
          (.register (some rawId) (some tools))).closes =
        [(e.ws, "Replaced by new connection")]) := by
  refine ⟨⟨?_, ?_, ?_⟩, ⟨?_, ?_, ?_⟩, ?_⟩
  · simp [wsHandleClose, mapHas, hreg, clearClientNotifications,
      addActivity, mapLookup_delete_self]
  · simp [wsHandleClose, mapHas, hreg, clearClientNotifications,
      addActivity, mapLookup_delete_self]
  · simp [wsHandleClose, mapHas, hreg, clearClientNotifications,
      addActivity]
  · simp [wsHandleMessage, mapHas, hreg, addActivity,
      mapLookup_delete_self]
  · simp [wsHandleMessage, mapHas, hreg, addActivity]
  · simp [wsHandleMessage, mapHas, hreg, addActivity]
  · intro rawId tools hsan hlen
    constructor
    · simp [wsHandleMessage, registerClientId, hlen, hsan, hreg,
        addActivity]
    · simp [wsHandleMessage, registerClientId, hlen, hsan, hreg,
        addActivity]

/-- Witness for C7 at a registered provider `p` holding one stored
notification: closing its channel clears both the registry entry and the
ring. -/
theorem c7_terminal_witness :
    mapLookup (wsHandleClose "t2" ⟨2, some "p"⟩
        { initialBroker with
          registry := [("p", ⟨2, [], "t0"⟩)]
          clientNotifications :=
            [("p", [⟨"p", .obj [], "t1"⟩])] }).registry "p" = none ∧
    mapLookup (wsHandleClose "t2" ⟨2, some "p"⟩
        { initialBroker with
          registry := [("p", ⟨2, [], "t0"⟩)]
          clientNotifications :=
            [("p", [⟨"p", .obj [], "t1"⟩])] }).clientNotifications "p" =
      none :=
  ⟨(c7_terminal_transitions "t2" "f" 2
      { initialBroker with
        registry := [("p", ⟨2, [], "t0"⟩)]
        clientNotifications := [("p", [⟨"p", .obj [], "t1"⟩])] }
      "p" ⟨2, [], "t0"⟩ rfl).1.1,
    (c7_terminal_transitions "t2" "f" 2
      { initialBroker with
        registry := [("p", ⟨2, [], "t0"⟩)]
        clientNotifications := [("p", [⟨"p", .obj [], "t1"⟩])] }
      "p" ⟨2, [], "t0"⟩ rfl).1.2.1⟩

/-- Counterexample to C7 as stated: a provider registers, stores one
notification and then unregisters — a terminal transition — after which
it is absent from the Registry yet still retains its non-empty
per-provider notification ring. -/
theorem c7_counterexample :
    (let s1 := wsHandleMessage "t1" "f" ⟨1, none⟩ initialBroker
        (.register (some "p") (some []));
      let s2 := wsHandleMessage "t2" "f" s1.session s1.broker
        (.notification (some (.obj [("type", .str "tick")])) none);
      let s3 := wsHandleMessage "t3" "f" s2.session s2.broker .unregister;
      mapLookup s3.broker.registry "p" = none ∧
      mapLookup s3.broker.clientNotifications "p" =
        some [⟨"p", .obj [("type", .str "tick")], "t2"⟩]) :=
  ⟨rfl, rfl⟩

-- ─── Claim C9 ───────────────────────────────────────────────────────────

theorem storeNotification_client_bound {b : BrokerState}
    (h3 : ∀ p ∈ b.clientNotifications,
      p.2.length ≤ NOTIFICATION_MAX_PER_CLIENT)
    (cid : String) (n : Notification) :
    ∀ p ∈ (storeNotification cid n b).clientNotifications,
      p.2.length ≤ NOTIFICATION_MAX_PER_CLIENT := by
  have hbound : (ringPush NOTIFICATION_MAX_PER_CLIENT
      ((mapLookup b.clientNotifications cid).getD [])
      n).length ≤ NOTIFICATION_MAX_PER_CLIENT := by
    apply ringPush_length_le
    cases hbuf : mapLookup b.clientNotifications cid with
    | none => simp
    | some l => simpa using h3 (cid, l) (mapLookup_mem hbuf)
  exact mapSet_forall h3 hbound

theorem clearClientNotifications_bound {b : BrokerState}
    (h3 : ∀ p ∈ b.clientNotifications,
      p.2.length ≤ NOTIFICATION_MAX_PER_CLIENT) (id : String) :
    ∀ p ∈ (clearClientNotifications id b).clientNotifications,
      p.2.length ≤ NOTIFICATION_MAX_PER_CLIENT :=
  mapDelete_forall h3 id

/-- C9: each ring buffer stays within its cap — 200 activity entries, 100
per-provider notifications, 500 global notifications — at process start
and across every broker operation (any WebSocket frame, a channel close,
a consumer tool call, a timeout firing), the oldest entry being dropped
on overflow. -/
theorem c9_ring_buffer_caps :
    RingInv initialBroker ∧
    (∀ nowIso fresh st b m, RingInv b →
      RingInv (wsHandleMessage nowIso fresh st b m).broker) ∧
    (∀ nowIso st b, RingInv b → RingInv (wsHandleClose nowIso st b)) ∧
    (∀ nowMs nowIso cid b name args, RingInv b →
      RingInv (mcpCallTool nowMs nowIso cid b name args).1) ∧
    (∀ cid b, RingInv b → RingInv (fireToolTimeout cid b).1) := by
  refine ⟨by decide, ?_, ?_, ?_, ?_⟩
  · intro nowIso fresh st b m h
    obtain ⟨h1, h2, h3⟩ := h
    cases m <;> simp only [wsHandleMessage] <;> repeat' split
    all_goals
      first
        | exact ⟨h1, h2, h3⟩
        | exact ⟨ringPush_length_le h1 _, h2, h3⟩
        | exact ⟨ringPush_length_le (ringPush_length_le h1 _) _, h2, h3⟩
        | exact ⟨ringPush_length_le h1 _, ringPush_length_le h2 _,
            storeNotification_client_bound h3 _ _⟩
  · intro nowIso st b h
    obtain ⟨h1, h2, h3⟩ := h
    simp only [wsHandleClose]
    repeat' split
    all_goals
      first
        | exact ⟨h1, h2, h3⟩
        | exact ⟨ringPush_length_le h1 _, h2,
            clearClientNotifications_bound h3 _⟩
  · intro nowMs nowIso cid b name args h
    obtain ⟨h1, h2, h3⟩ := h
    simp only [mcpCallTool]
    repeat' split
    all_goals
      first
        | exact ⟨ringPush_length_le h1 _, h2, h3⟩
        | exact ⟨ringPush_length_le (ringPush_length_le h1 _) _, h2, h3⟩
  · intro cid b h
    obtain ⟨h1, h2, h3⟩ := h
    simp only [fireToolTimeout]
    repeat' split
    all_goals exact ⟨h1, h2, h3⟩

/-- Witness for C9: the invariant holds at start and is preserved across
a concrete registration step. -/
theorem c9_ring_buffer_witness :
    RingInv initialBroker ∧
    RingInv (wsHandleMessage "t1" "f" ⟨1, none⟩ initialBroker
      (.register (some "p") none)).broker :=
  ⟨c9_ring_buffer_caps.1,
    c9_ring_buffer_caps.2.1 "t1" "f" ⟨1, none⟩ initialBroker
      (.register (some "p") none) (by decide)⟩

end McpBroker
